import Mathlib

/-!
Verification of the GIS service (`backend/gis_service/main.py`).

The development shallowly embeds the data model, the pure geometry functions
(`GeometryService`), the storage layer (`GeoDataStorage`, modelled as an
explicit state record of a durable file map and an in-memory cache), and the
HTTP endpoint bodies that the claims refer to.  Python floats are modelled as
real numbers.  The serialization failure of `save_project_geodata` is
deterministic in the source — `json.dumps` raises `TypeError` exactly when the
aggregate contains a member, because every member carries a
`created_at: datetime` that pydantic's `.dict()` leaves as a `datetime`
object — and is embedded as the predicate `serializable`; environmental OS
faults (disk errors) are outside the model.
-/

namespace Gis

/-! ## Data model -/

/-- Embeds the pydantic model `Coordinates` (latitude, longitude, optional
altitude).  The field bounds (`ge=-90, le=90` etc.) are enforced by pydantic at
construction; here they are the separate predicate `Coordinates.Valid`. -/
structure Coordinates where
  latitude : ℝ
  longitude : ℝ
  altitude : Option ℝ := none

/-- Validity of a coordinate: exactly the pydantic field constraints
`latitude ∈ [-90, 90]`, `longitude ∈ [-180, 180]`. -/
def Coordinates.Valid (c : Coordinates) : Prop :=
  -90 ≤ c.latitude ∧ c.latitude ≤ 90 ∧ -180 ≤ c.longitude ∧ c.longitude ≤ 180

/-- JSON values, used to embed the `Dict[str, Any]` `properties` maps and the
GeoJSON export output. -/
inductive Json where
  | null : Json
  | bool : Bool → Json
  | num : ℝ → Json
  | str : String → Json
  | arr : List Json → Json
  | obj : List (String × Json) → Json

/-- Embeds `GeoPoint` (`id`, `coordinates`, `properties`).  The `address` and
`created_at` fields carry no behaviour relevant to any claim and are omitted. -/
structure GeoPoint where
  id : String
  coordinates : Coordinates
  properties : List (String × Json) := []

/-- Embeds `GeoPolygon`: a list of rings of coordinates plus the derived
`area_sqm` / `perimeter_m` fields (Python `Optional[float]`). -/
structure GeoPolygon where
  id : String
  coordinates : List (List Coordinates)
  properties : List (String × Json) := []
  area_sqm : Option ℝ := none
  perimeter_m : Option ℝ := none

/-- Embeds `GeoLine`: a list of coordinates plus the derived `length_m`. -/
structure GeoLine where
  id : String
  coordinates : List Coordinates
  properties : List (String × Json) := []
  length_m : Option ℝ := none

/-- Embeds the bounds dictionary `{"north", "south", "east", "west"}` returned
by `GeometryService.calculate_bounds` for nonempty input. -/
structure Bounds where
  north : ℝ
  south : ℝ
  east : ℝ
  west : ℝ

/-- Embeds the aggregate root `ProjectGeoData`.  `bounds = none` stands for the
Python values `None` and `{}` (the empty dict produced by `calculate_bounds` on
empty input), which are indistinguishable for the claims considered here. -/
structure ProjectGeoData where
  project_id : String
  points : List GeoPoint := []
  polygons : List GeoPolygon := []
  lines : List GeoLine := []
  bounds : Option Bounds := none
  center : Option Coordinates := none

/-! ## Geometry engine (`GeometryService`) -/

/-- Embeds Python `math.radians`. -/
noncomputable def radians (x : ℝ) : ℝ := x * Real.pi / 180

/-- Embeds Python `math.atan2` (the standard C `atan2` case split), which
Mathlib does not provide directly. -/
noncomputable def atan2 (y x : ℝ) : ℝ :=
  if 0 < x then Real.arctan (y / x)
  else if x < 0 then
    if 0 ≤ y then Real.arctan (y / x) + Real.pi else Real.arctan (y / x) - Real.pi
  else
    if 0 < y then Real.pi / 2 else if y < 0 then -(Real.pi / 2) else 0

/-- Embeds `GeometryService.haversine_distance` (main.py lines 229-245),
keeping the source's intermediate variables. -/
noncomputable def haversine_distance (lat1 lon1 lat2 lon2 : ℝ) : ℝ :=
  let R : ℝ := 6371000
  let lat1_rad := radians lat1
  let lat2_rad := radians lat2
  let delta_lat := radians (lat2 - lat1)
  let delta_lon := radians (lon2 - lon1)
  let a := Real.sin (delta_lat / 2) ^ 2 +
    Real.cos lat1_rad * Real.cos lat2_rad * Real.sin (delta_lon / 2) ^ 2
  let c := 2 * atan2 (Real.sqrt a) (Real.sqrt (1 - a))
  R * c

/-- The haversine term `a` of `haversine_distance`, as a named function so the
symmetry proofs can manipulate it. -/
noncomputable def hav (lat1 lon1 lat2 lon2 : ℝ) : ℝ :=
  Real.sin (radians (lat2 - lat1) / 2) ^ 2 +
    Real.cos (radians lat1) * Real.cos (radians lat2) *
      Real.sin (radians (lon2 - lon1) / 2) ^ 2

/-- Cross term of one iteration of the shoelace loop in
`calculate_polygon_area`:
`coordinates[i].longitude * coordinates[j].latitude
  - coordinates[j].longitude * coordinates[i].latitude`. -/
noncomputable def cross (a b : Coordinates) : ℝ :=
  a.longitude * b.latitude - b.longitude * a.latitude

/-- The full shoelace loop of `calculate_polygon_area`: the Python loop pairs
index `i` with `j = (i + 1) % n`, which is exactly pairing the list with its
rotation by one. -/
noncomputable def shoelaceSum (l : List Coordinates) : ℝ :=
  (List.zipWith cross l (l.rotate 1)).sum

/-- Embeds `GeometryService.calculate_polygon_area` (main.py lines 247-274). -/
noncomputable def calculate_polygon_area (coordinates : List Coordinates) : ℝ :=
  if coordinates.length < 3 then 0
  else
    let n : ℕ := coordinates.length
    let area := |shoelaceSum coordinates| / 2
    let avg_lat := (coordinates.map (·.latitude)).sum / n
    let lat_factor := Real.cos (radians avg_lat)
    |area * (111320 : ℝ) ^ 2 * lat_factor|

/-- Embeds `GeometryService.calculate_line_length` (main.py lines 276-290):
the loop over `i` in `range(len - 1)` sums the haversine distance of each
consecutive pair, i.e. zips the list with its tail. -/
noncomputable def calculate_line_length (coordinates : List Coordinates) : ℝ :=
  if coordinates.length < 2 then 0
  else
    (List.zipWith
      (fun a b => haversine_distance a.latitude a.longitude b.latitude b.longitude)
      coordinates coordinates.tail).sum

/-- Python's builtin `max` over a nonempty list (left fold of binary `max`
over the remaining elements).  The `[]` case is unreachable in the embedded
code: `calculate_bounds` only calls it on nonempty input. -/
noncomputable def pyMax (l : List ℝ) : ℝ :=
  match l with
  | [] => 0
  | x :: xs => xs.foldl max x

/-- Python's builtin `min` over a nonempty list; see `pyMax`. -/
noncomputable def pyMin (l : List ℝ) : ℝ :=
  match l with
  | [] => 0
  | x :: xs => xs.foldl min x

/-- Embeds `GeometryService.calculate_bounds` (main.py lines 292-306).  The
Python function returns the empty dict `{}` on empty input (embedded as
`none`) and the four-key dict otherwise (embedded as `some`). -/
noncomputable def calculate_bounds (coordinates : List Coordinates) : Option Bounds :=
  if coordinates.isEmpty then none
  else
    let lats := coordinates.map (·.latitude)
    let lons := coordinates.map (·.longitude)
    some { north := pyMax lats, south := pyMin lats,
           east := pyMax lons, west := pyMin lons }

/-- Embeds `GeometryService.calculate_center` (main.py lines 308-317). -/
noncomputable def calculate_center (coordinates : List Coordinates) : Coordinates :=
  if coordinates.isEmpty then { latitude := 0, longitude := 0 }
  else
    { latitude := (coordinates.map (·.latitude)).sum / coordinates.length,
      longitude := (coordinates.map (·.longitude)).sum / coordinates.length }

/-- Sum of `cross` over consecutive pairs of an (open) path; auxiliary notion
for reasoning about the cyclic shoelace sum. -/
noncomputable def pathSum : List Coordinates → ℝ
  | a :: b :: t => cross a b + pathSum (b :: t)
  | _ => 0

/-! ## Storage layer (`GeoDataStorage`) and endpoint bodies -/

/-- State of the `GeoDataStorage` instance: the durable files directory
(`gis_data/{project_id}.json`, keyed by project id; the `updated_at` timestamp
written alongside is irrelevant to the claims and omitted) and the in-memory
cache `self.projects`. -/
structure StoreState where
  files : String → Option ProjectGeoData
  cache : String → Option ProjectGeoData

/-- The initial storage state: no durable records, empty cache. -/
def emptyStore : StoreState := { files := fun _ => none, cache := fun _ => none }

/-- Whether `json.dumps(geodata.dict())` succeeds inside
`GeoDataStorage.save_project_geodata`.  Pydantic's `.dict()` leaves each
member's `created_at` as a `datetime` object, which `json.dumps` cannot
serialize, so serialization succeeds exactly when the aggregate has no
points, polygons or lines; every other field (`project_id`, `bounds`,
`center`, coordinates, properties parsed from request JSON) is JSON-safe. -/
def serializable (g : ProjectGeoData) : Bool :=
  g.points.isEmpty && g.polygons.isEmpty && g.lines.isEmpty

/-- Embeds `GeoDataStorage.save_project_geodata` (main.py lines 332-349).
The body opens the durable file with mode `'w'` — truncating any prior
record — and only then evaluates `json.dumps(data)`, which raises `TypeError`
whenever the aggregate contains a member (see `serializable`).  On that
failure the function returns `False` with the in-memory cache untouched (the
line `self.projects[project_id] = geodata` is never reached), but the prior
durable record has been truncated to an empty, unparseable file.  Every
operation of this service treats that empty file exactly like an absent
record (`load` catches the `json.loads` error and returns `None`; `delete`
unlinks it; a later successful `save` overwrites it), so it is embedded as
`none` in the file map. -/
def saveStorage (s : StoreState) (project_id : String)
    (geodata : ProjectGeoData) : StoreState × Bool :=
  if serializable geodata then
    ({ files := fun p => if p = project_id then some geodata else s.files p,
       cache := fun p => if p = project_id then some geodata else s.cache p },
     true)
  else
    ({ files := fun p => if p = project_id then none else s.files p,
       cache := s.cache },
     false)

/-- Embeds `GeoDataStorage.load_project_geodata` (main.py lines 351-371):
cache first, then the durable record (populating the cache on a hit), `none`
when the record is absent. -/
def loadStorage (s : StoreState) (project_id : String) :
    StoreState × Option ProjectGeoData :=
  match s.cache project_id with
  | some geodata => (s, some geodata)
  | none =>
    match s.files project_id with
    | none => (s, none)
    | some geodata =>
      ({ s with cache := fun p => if p = project_id then some geodata else s.cache p },
       some geodata)

/-- Embeds `GeoDataStorage.delete_project_geodata` (main.py lines 373-387):
unlinks the durable file when it exists, evicts the cache entry when present,
and returns `True` (the `except` branch fires only on OS faults, which are
outside this model). -/
def deleteStorage (s : StoreState) (project_id : String) : StoreState × Bool :=
  ({ files := fun p => if p = project_id then none else s.files p,
     cache := fun p => if p = project_id then none else s.cache p },
   true)

/-- All coordinates of every ring of a polygon, in ring order: the inner loop
`for ring in polygon.coordinates: all_coordinates.extend(ring)`. -/
def polygonAllCoords (p : GeoPolygon) : List Coordinates := p.coordinates.flatten

/-- The derived-field update applied to each polygon by the save endpoint:
`if polygon.coordinates and polygon.coordinates[0]:` recompute `area_sqm` from
the first (exterior) ring, otherwise leave the polygon unchanged. -/
noncomputable def recomputePolygon (p : GeoPolygon) : GeoPolygon :=
  match p.coordinates with
  | (c :: ring) :: _ => { p with area_sqm := some (calculate_polygon_area (c :: ring)) }
  | _ => p

/-- The derived-field update applied to each line by the save endpoint:
`line.length_m = geometry_service.calculate_line_length(line.coordinates)`. -/
noncomputable def recomputeLine (ln : GeoLine) : GeoLine :=
  { ln with length_m := some (calculate_line_length ln.coordinates) }

/-- The `all_coordinates` list collected by the save endpoint: point
coordinates, then every polygon ring, then every line, in source order. -/
def allCoordinates (g : ProjectGeoData) : List Coordinates :=
  g.points.map (·.coordinates) ++ (g.polygons.map polygonAllCoords).flatten ++
    (g.lines.map (·.coordinates)).flatten

/-- The aggregate actually persisted by the save endpoint
(`save_project_geodata`, main.py lines 518-548): the path's `project_id`
overrides the body's, each polygon's `area_sqm` and each line's `length_m` are
recomputed, and `bounds`/`center` are recomputed only when `all_coordinates`
is nonempty. -/
noncomputable def recomputeAggregate (project_id : String)
    (geodata : ProjectGeoData) : ProjectGeoData :=
  let g1 := { geodata with project_id := project_id }
  let g2 := { g1 with polygons := g1.polygons.map recomputePolygon,
                      lines := g1.lines.map recomputeLine }
  let coords := allCoordinates g1
  if coords.isEmpty then g2
  else { g2 with bounds := calculate_bounds coords,
                 center := some (calculate_center coords) }

/-- Embeds the endpoint `POST /projects/{project_id}/geodata`
(`save_project_geodata`, main.py lines 518-552).  The boolean result is
`true` for the success JSON and `false` for the HTTP 500 raised when the
storage save fails. -/
noncomputable def saveEndpoint (s : StoreState)
    (project_id : String) (geodata : ProjectGeoData) : StoreState × Bool :=
  saveStorage s project_id (recomputeAggregate project_id geodata)

/-- Embeds the endpoint `POST /projects/{project_id}/points`
(`add_project_point`, main.py lines 565-578): load-or-create the aggregate,
append the point, then save through the storage layer (which performs no
recomputation of derived fields). -/
def addPointEndpoint (s : StoreState) (project_id : String)
    (point : GeoPoint) : StoreState × Bool :=
  let r := loadStorage s project_id
  let geodata :=
    match r.2 with
    | some g => g
    | none => { project_id := project_id : ProjectGeoData }
  saveStorage r.1 project_id { geodata with points := geodata.points ++ [point] }

/-! ## GeoJSON export (`export_project_geodata`) -/

/-- Python dict construction `{**base, **upd}` (equivalently a dict literal
followed by `**upd`): keys of `base` keep their place but values of duplicate
keys are overridden by `upd`; keys only in `upd` are appended in order. -/
def dictUpdate (base upd : List (String × Json)) : List (String × Json) :=
  base.map (fun kv =>
    match upd.find? (fun kv2 => kv2.1 == kv.1) with
    | some kv2 => (kv.1, kv2.2)
    | none => kv) ++
  upd.filter (fun kv2 => !(base.any (fun kv => kv.1 == kv2.1)))

/-- Python dict key lookup over the embedded association list. -/
def jsonLookup (kvs : List (String × Json)) (k : String) : Option Json :=
  (kvs.find? (fun kv => kv.1 == k)).map (·.2)

/-- A Python `Optional[float]` serialized into JSON. -/
def optNum : Option ℝ → Json
  | none => Json.null
  | some x => Json.num x

/-- `Coordinates.dict()`: the serialized center in the collection-level
properties. -/
def coordinatesDict (c : Coordinates) : Json :=
  Json.obj [("latitude", Json.num c.latitude), ("longitude", Json.num c.longitude),
    ("altitude", optNum c.altitude)]

/-- Properties of a point feature: `{"id": point.id, **point.properties}`. -/
def pointProperties (pt : GeoPoint) : List (String × Json) :=
  dictUpdate [("id", Json.str pt.id)] pt.properties

/-- One point Feature of the GeoJSON export (main.py lines 613-624): the
geometry coordinates are emitted as `[longitude, latitude]`. -/
def pointFeature (pt : GeoPoint) : Json :=
  Json.obj [("type", Json.str "Feature"),
    ("geometry", Json.obj [("type", Json.str "Point"),
      ("coordinates", Json.arr [Json.num pt.coordinates.longitude,
        Json.num pt.coordinates.latitude])]),
    ("properties", Json.obj (pointProperties pt))]

/-- Properties of a polygon feature:
`{"id": polygon.id, "area_sqm": polygon.area_sqm, **polygon.properties}`. -/
def polygonProperties (poly : GeoPolygon) : List (String × Json) :=
  dictUpdate [("id", Json.str poly.id), ("area_sqm", optNum poly.area_sqm)]
    poly.properties

/-- One ring of a polygon geometry, each coordinate as
`[longitude, latitude]`. -/
def ringJson (ring : List Coordinates) : Json :=
  Json.arr (ring.map (fun c => Json.arr [Json.num c.longitude, Json.num c.latitude]))

/-- One polygon Feature of the GeoJSON export (main.py lines 627-644). -/
def polygonFeature (poly : GeoPolygon) : Json :=
  Json.obj [("type", Json.str "Feature"),
    ("geometry", Json.obj [("type", Json.str "Polygon"),
      ("coordinates", Json.arr (poly.coordinates.map ringJson))]),
    ("properties", Json.obj (polygonProperties poly))]

/-- Properties of a line feature:
`{"id": line.id, "length_m": line.length_m, **line.properties}`. -/
def lineProperties (ln : GeoLine) : List (String × Json) :=
  dictUpdate [("id", Json.str ln.id), ("length_m", optNum ln.length_m)] ln.properties

/-- One line Feature of the GeoJSON export (main.py lines 647-661). -/
def lineFeature (ln : GeoLine) : Json :=
  Json.obj [("type", Json.str "Feature"),
    ("geometry", Json.obj [("type", Json.str "LineString"),
      ("coordinates", Json.arr (ln.coordinates.map
        (fun c => Json.arr [Json.num c.longitude, Json.num c.latitude])))]),
    ("properties", Json.obj (lineProperties ln))]

/-- Embeds the GeoJSON branch of the endpoint `GET /projects/{project_id}/export`
(`export_project_geodata`, main.py lines 601-673). -/
def toGeoJson (project_id : String) (g : ProjectGeoData) : Json :=
  Json.obj [("type", Json.str "FeatureCollection"),
    ("features", Json.arr (g.points.map pointFeature ++ g.polygons.map polygonFeature ++
      g.lines.map lineFeature)),
    ("properties", Json.obj [("project_id", Json.str project_id),
      ("bounds", match g.bounds with
        | some b => Json.obj [("north", Json.num b.north), ("south", Json.num b.south),
            ("east", Json.num b.east), ("west", Json.num b.west)]
        | none => Json.null),
      ("center", match g.center with
        | some c => coordinatesDict c
        | none => Json.null)])]

/-! ## Concrete data used by witnesses and counterexamples -/

/-- First concrete point appended in the C1 scenario. -/
def cexPoint1 : GeoPoint := { id := "pt1", coordinates := { latitude := 0, longitude := 0 } }

/-- Second concrete point appended in the C1 scenario. -/
def cexPoint2 : GeoPoint := { id := "pt2", coordinates := { latitude := 1, longitude := 1 } }

/-- Aggregate with no geometry but caller-supplied stale `bounds` and
`center`, used for claim C2 (counterexample and witness) and the C10 witness;
being member-free, it is the one kind of aggregate the source can actually
serialize and save. -/
def staleAgg : ProjectGeoData :=
  { project_id := "x",
    bounds := some { north := 1, south := 1, east := 1, west := 1 },
    center := some { latitude := 1, longitude := 1 } }

/-- Concrete aggregate containing one point (hence a member whose
`created_at` defeats JSON serialization), used for the C6 witness and the
C10 counterexample. -/
def memberedAgg : ProjectGeoData :=
  { project_id := "m",
    points := [{ id := "m1", coordinates := { latitude := 5, longitude := 6 } }] }

/-- Concrete polygon with no caller-supplied properties, used for the C8
witness. -/
def plainPoly : GeoPolygon := { id := "poly2", coordinates := [], area_sqm := some 7 }

/-- Concrete aggregate holding `plainPoly`, used for the C8 witness. -/
def c8Agg : ProjectGeoData := { project_id := "q", polygons := [plainPoly] }

/-- Polygon whose caller-supplied properties already contain an `"area_sqm"`
key, used to refute claim C8 as stated. -/
def shadowPoly : GeoPolygon :=
  { id := "poly1", coordinates := [], properties := [("area_sqm", Json.num 999)],
    area_sqm := some 12 }

/-! ## Helper lemmas: haversine -/

theorem haversine_distance_eq (lat1 lon1 lat2 lon2 : ℝ) :
    haversine_distance lat1 lon1 lat2 lon2 =
      6371000 * (2 * atan2 (Real.sqrt (hav lat1 lon1 lat2 lon2))
        (Real.sqrt (1 - hav lat1 lon1 lat2 lon2))) := rfl

theorem sin_sq_sub_symm (u v : ℝ) :
    Real.sin (radians (u - v) / 2) ^ 2 = Real.sin (radians (v - u) / 2) ^ 2 := by
  have h : radians (u - v) / 2 = -(radians (v - u) / 2) := by
    unfold radians; ring
  rw [h, Real.sin_neg]; ring

theorem hav_symm (lat1 lon1 lat2 lon2 : ℝ) :
    hav lat1 lon1 lat2 lon2 = hav lat2 lon2 lat1 lon1 := by
  unfold hav
  rw [sin_sq_sub_symm lat2 lat1, sin_sq_sub_symm lon2 lon1]
  ring

theorem hav_self (lat lon : ℝ) : hav lat lon lat lon = 0 := by
  unfold hav
  simp [radians]

theorem arctan_nonneg_of_nonneg {x : ℝ} (h : 0 ≤ x) : 0 ≤ Real.arctan x := by
  have := Real.arctan_strictMono.monotone h
  rwa [Real.arctan_zero] at this

theorem atan2_nonneg {y x : ℝ} (hy : 0 ≤ y) (hx : 0 ≤ x) : 0 ≤ atan2 y x := by
  unfold atan2
  rcases lt_or_eq_of_le hx with hx' | hx'
  · rw [if_pos hx']
    exact arctan_nonneg_of_nonneg (div_nonneg hy hx'.le)
  · subst hx'
    rcases lt_or_eq_of_le hy with hy' | hy'
    · norm_num [hy']
      positivity
    · subst hy'
      norm_num

/-! ## Helper lemmas: shoelace sums -/

theorem pathSum_nil : pathSum [] = 0 := rfl

theorem pathSum_single (a : Coordinates) : pathSum [a] = 0 := rfl

theorem pathSum_cons_cons (a b : Coordinates) (t : List Coordinates) :
    pathSum (a :: b :: t) = cross a b + pathSum (b :: t) := rfl

theorem cross_antisymm (a b : Coordinates) : cross b a = -cross a b := by
  unfold cross; ring

theorem cross_self (a : Coordinates) : cross a a = 0 := by
  unfold cross; ring

theorem pathSum_concat :
    ∀ (l : List Coordinates) (x y : Coordinates), l.getLast? = some y →
      pathSum (l ++ [x]) = pathSum l + cross y x
  | [], _, _, h => by simp at h
  | [a], x, y, h => by
    simp only [List.getLast?_singleton, Option.some.injEq] at h
    subst h
    simp [pathSum_cons_cons, pathSum_single, pathSum_nil]
  | a :: b :: t, x, y, h => by
    rw [List.getLast?_cons_cons] at h
    have ih := pathSum_concat (b :: t) x y h
    simp only [List.cons_append, pathSum_cons_cons] at *
    rw [ih]
    ring

theorem pathSum_reverse : ∀ l : List Coordinates, pathSum l.reverse = -pathSum l
  | [] => by simp [pathSum_nil]
  | [a] => by simp [pathSum_single]
  | a :: b :: t => by
    have hlast : ((b :: t).reverse).getLast? = some b := by
      rw [List.getLast?_reverse]; rfl
    calc pathSum (a :: b :: t).reverse
        = pathSum ((b :: t).reverse ++ [a]) := by simp
      _ = pathSum ((b :: t).reverse) + cross b a := pathSum_concat _ a b hlast
      _ = -pathSum (b :: t) + cross b a := by rw [pathSum_reverse (b :: t)]
      _ = -(cross a b + pathSum (b :: t)) := by rw [cross_antisymm]; ring
      _ = -pathSum (a :: b :: t) := by rw [pathSum_cons_cons]

theorem zipWith_cross_path :
    ∀ (t : List Coordinates) (a x : Coordinates),
      (List.zipWith cross (a :: t) (t ++ [x])).sum = pathSum ((a :: t) ++ [x])
  | [], a, x => by
    simp [pathSum_cons_cons, pathSum_single]
  | b :: t', a, x => by
    have ih := zipWith_cross_path t' b x
    simp only [List.cons_append, List.zipWith_cons_cons, List.sum_cons,
      pathSum_cons_cons] at *
    rw [ih]

theorem rotate_one_cons (a : Coordinates) (t : List Coordinates) :
    (a :: t).rotate 1 = t ++ [a] := by
  have h := List.rotate_cons_succ t a 0
  rwa [List.rotate_zero] at h

theorem shoelaceSum_cons_eq_path (a : Coordinates) (t : List Coordinates) :
    shoelaceSum (a :: t) = pathSum ((a :: t) ++ [a]) := by
  unfold shoelaceSum
  rw [rotate_one_cons, zipWith_cross_path]

theorem shoelaceSum_rotate_one (l : List Coordinates) :
    shoelaceSum (l.rotate 1) = shoelaceSum l := by
  cases l with
  | nil => rfl
  | cons a t =>
    cases t with
    | nil => rw [rotate_one_cons]; rfl
    | cons b t' =>
      rw [rotate_one_cons]
      have lhs :
          shoelaceSum ((b :: t') ++ [a]) =
            pathSum (b :: (t' ++ [a])) + cross a b := by
        have h1 : shoelaceSum (b :: (t' ++ [a])) =
            pathSum ((b :: (t' ++ [a])) ++ [b]) := shoelaceSum_cons_eq_path b (t' ++ [a])
        have h2 : (b :: (t' ++ [a])).getLast? = some a := by
          rw [show b :: (t' ++ [a]) = (b :: t') ++ [a] by simp]
          exact List.getLast?_concat _
        have h3 := pathSum_concat (b :: (t' ++ [a])) b a h2
        simp only [List.cons_append] at h1 h3 ⊢
        rw [h1, h3]
      have rhs :
          shoelaceSum (a :: b :: t') = cross a b + pathSum (b :: (t' ++ [a])) := by
        rw [shoelaceSum_cons_eq_path]
        simp only [List.cons_append, pathSum_cons_cons]
      rw [lhs, rhs]
      ring

theorem shoelaceSum_rotate (l : List Coordinates) (k : ℕ) :
    shoelaceSum (l.rotate k) = shoelaceSum l := by
  induction k with
  | zero => rw [List.rotate_zero]
  | succ n ih =>
    have h : l.rotate (n + 1) = (l.rotate n).rotate 1 := by
      rw [List.rotate_rotate]
    rw [h, shoelaceSum_rotate_one, ih]

theorem shoelaceSum_reverse (l : List Coordinates) :
    shoelaceSum l.reverse = -shoelaceSum l := by
  cases l with
  | nil => simp [shoelaceSum]
  | cons a t =>
    have h1 : (a :: t).reverse = (a :: t.reverse).rotate 1 := by
      rw [rotate_one_cons]
      simp
    rw [h1, shoelaceSum_rotate_one, shoelaceSum_cons_eq_path,
      shoelaceSum_cons_eq_path]
    have h2 : (a :: t.reverse) ++ [a] = ((a :: t) ++ [a]).reverse := by
      simp
    rw [h2, pathSum_reverse]

/-! ## Helper lemmas: storage and endpoints -/

theorem saveStorage_append_fails (s : StoreState) (pid : String)
    (g : ProjectGeoData) (p : GeoPoint) :
    saveStorage s pid { g with points := g.points ++ [p] } =
      ({ files := fun q => if q = pid then none else s.files q,
         cache := s.cache }, false) := by
  have h : serializable { g with points := g.points ++ [p] } = false := by
    unfold serializable
    cases g.points <;> simp
  unfold saveStorage
  rw [h]
  simp

theorem isEmpty_map {α β : Type*} (f : α → β) (l : List α) :
    (l.map f).isEmpty = l.isEmpty := by
  cases l <;> rfl

theorem addPoint_always_fails (s : StoreState) (pid : String) (p : GeoPoint) :
    (addPointEndpoint s pid p).2 = false := by
  unfold addPointEndpoint
  cases h : (loadStorage s pid).2 with
  | none =>
    simp [h, saveStorage, serializable]
  | some g =>
    simp only [h]
    rw [saveStorage_append_fails]

theorem recomputePolygon_coordinates (p : GeoPolygon) :
    (recomputePolygon p).coordinates = p.coordinates := by
  rcases hp : p.coordinates with _ | ⟨r, rest⟩
  · simp [recomputePolygon, hp]
  · rcases r with _ | ⟨c, ring⟩ <;> simp [recomputePolygon, hp]

theorem polygonAllCoords_recompute (p : GeoPolygon) :
    polygonAllCoords (recomputePolygon p) = polygonAllCoords p := by
  unfold polygonAllCoords
  rw [recomputePolygon_coordinates]

theorem recomputeAggregate_lines (pid : String) (g : ProjectGeoData) :
    (recomputeAggregate pid g).lines = g.lines.map recomputeLine := by
  unfold recomputeAggregate
  by_cases h : (allCoordinates { g with project_id := pid }).isEmpty <;> simp [h]

theorem recomputeAggregate_polygons (pid : String) (g : ProjectGeoData) :
    (recomputeAggregate pid g).polygons = g.polygons.map recomputePolygon := by
  unfold recomputeAggregate
  by_cases h : (allCoordinates { g with project_id := pid }).isEmpty <;> simp [h]

theorem recomputeAggregate_points (pid : String) (g : ProjectGeoData) :
    (recomputeAggregate pid g).points = g.points := by
  unfold recomputeAggregate
  by_cases h : (allCoordinates { g with project_id := pid }).isEmpty <;> simp [h]

theorem serializable_recompute (pid : String) (g : ProjectGeoData) :
    serializable (recomputeAggregate pid g) = serializable g := by
  unfold serializable
  rw [recomputeAggregate_points, recomputeAggregate_lines, recomputeAggregate_polygons,
    isEmpty_map, isEmpty_map]

theorem recomputeAggregate_of_serializable (pid : String) (g : ProjectGeoData)
    (h : serializable g = true) :
    recomputeAggregate pid g = { g with project_id := pid } := by
  unfold serializable at h
  simp only [Bool.and_eq_true, List.isEmpty_iff] at h
  obtain ⟨⟨hp, hpo⟩, hl⟩ := h
  unfold recomputeAggregate
  simp [allCoordinates, polygonAllCoords, hp, hpo, hl]

theorem allCoordinates_recomputeAggregate (pid : String) (g : ProjectGeoData) :
    allCoordinates (recomputeAggregate pid g) =
      allCoordinates { g with project_id := pid } := by
  have hpoly : ∀ ps : List GeoPolygon,
      (ps.map recomputePolygon).map polygonAllCoords = ps.map polygonAllCoords := by
    intro ps
    rw [List.map_map]
    exact List.map_congr_left fun p _ => polygonAllCoords_recompute p
  have hline : ∀ ls : List GeoLine,
      (ls.map recomputeLine).map (·.coordinates) = ls.map (·.coordinates) := by
    intro ls
    rw [List.map_map]
    exact List.map_congr_left fun ln _ => rfl
  unfold recomputeAggregate
  by_cases h : (allCoordinates { g with project_id := pid }).isEmpty
  · simp only [h, if_true]
    simp [allCoordinates, hpoly, hline]
  · simp only [h, Bool.false_eq_true, if_false]
    simp [allCoordinates, hpoly, hline]

/-! ## Claim C1: two sequential appends -/

/-- Claim C1, code bug.  The claim describes the intended behaviour of the
append-point endpoint (the spec's own scenario), but in the source the
endpoint can never succeed: the aggregate it saves always contains at least
the appended point, whose `created_at` datetime makes `json.dumps` raise, so
`GeoDataStorage.save_project_geodata` returns `False` and the endpoint
answers HTTP 500 every time.  The first conjunct shows every append call
fails; the rest evaluate the claim's scenario (two sequential appends of
`cexPoint1`, `cexPoint2` on a fresh project) and show that afterwards neither
the cache nor the durable store holds any record — in particular no aggregate
with the two points and no recomputed bounds/center. -/
theorem c1_append_point_never_succeeds (s : StoreState) (pid : String) (p : GeoPoint) :
    (addPointEndpoint s pid p).2 = false ∧
    (addPointEndpoint (addPointEndpoint emptyStore "p" cexPoint1).1 "p" cexPoint2).2 =
      false ∧
    (addPointEndpoint (addPointEndpoint emptyStore "p" cexPoint1).1 "p"
      cexPoint2).1.cache "p" = none ∧
    (addPointEndpoint (addPointEndpoint emptyStore "p" cexPoint1).1 "p"
      cexPoint2).1.files "p" = none := by
  refine ⟨addPoint_always_fails s pid p, addPoint_always_fails _ _ _, ?_, ?_⟩
  · simp [addPointEndpoint, loadStorage, saveStorage, serializable, emptyStore]
  · simp [addPointEndpoint, loadStorage, saveStorage, serializable, emptyStore]

/-! ## Claim C2: save recomputes derived fields before load returns them -/

/-- Claim C2 (corrected): the save endpoint stores an aggregate exactly when
the request aggregate has no members (every point, polygon and line carries a
`created_at` datetime that defeats JSON serialization).  In that case `save`
followed by `load` returns the caller's aggregate with only `project_id`
forced to the path value: all derived fields (`bounds`, `center`, and the
absent members' `area_sqm`/`length_m`) are exactly the caller-supplied
values, since with no members there is nothing to recompute and the
`bounds`/`center` recomputation is guarded by nonemptiness.  For every
aggregate with at least one member the save fails (HTTP 500), the cache entry
is unchanged, and the claimed round-trip never occurs. -/
theorem c2_save_then_load_roundtrip (s : StoreState) (pid : String)
    (g : ProjectGeoData) :
    (serializable g = true →
      (saveEndpoint s pid g).2 = true ∧
      (loadStorage (saveEndpoint s pid g).1 pid).2 = some { g with project_id := pid }) ∧
    (serializable g = false →
      (saveEndpoint s pid g).2 = false ∧
      (saveEndpoint s pid g).1.cache pid = s.cache pid) := by
  constructor
  · intro h
    have hr := recomputeAggregate_of_serializable pid g h
    have hs : serializable (recomputeAggregate pid g) = true := by
      rw [serializable_recompute]; exact h
    unfold saveEndpoint
    rw [hr] at hs ⊢
    constructor
    · simp [saveStorage, hs]
    · simp [saveStorage, loadStorage, hs]
  · intro h
    have hs : serializable (recomputeAggregate pid g) = false := by
      rw [serializable_recompute]; exact h
    unfold saveEndpoint
    constructor <;> simp [saveStorage, hs]

/-- Claim C2, witness: instance of the success branch of
`c2_save_then_load_roundtrip` at a concrete member-free aggregate. -/
theorem c2_save_then_load_roundtrip_witness :
    serializable staleAgg = true ∧
    (loadStorage (saveEndpoint emptyStore "p" staleAgg).1 "p").2 =
      some { staleAgg with project_id := "p" } :=
  ⟨rfl, ((c2_save_then_load_roundtrip emptyStore "p" staleAgg).1 rfl).2⟩

/-- Claim C2, counterexample.  The claim says the loaded aggregate's `bounds`
and `center` are never the caller-supplied values and always equal a fresh
recomputation from the raw coordinates.  Saving an aggregate with no
coordinates but caller-supplied `bounds` through the endpoint (the one kind
of aggregate the source can serialize) and loading it back returns those
caller-supplied `bounds` unchanged, while fresh recomputation over the
(empty) raw coordinates yields no bounds at all. -/
theorem c2_counterexample :
    (loadStorage (saveEndpoint emptyStore "p" staleAgg).1 "p").2 =
      some { staleAgg with project_id := "p" } ∧
    ({ staleAgg with project_id := "p" } : ProjectGeoData).bounds =
      some { north := 1, south := 1, east := 1, west := 1 } ∧
    calculate_bounds (allCoordinates { staleAgg with project_id := "p" }) = none ∧
    ({ staleAgg with project_id := "p" } : ProjectGeoData).bounds ≠
      calculate_bounds (allCoordinates { staleAgg with project_id := "p" }) := by
  refine ⟨?_, rfl, rfl, ?_⟩
  · simp [loadStorage, saveEndpoint, saveStorage, serializable, recomputeAggregate,
      staleAgg, allCoordinates, polygonAllCoords]
  · simp [staleAgg, allCoordinates, polygonAllCoords, calculate_bounds]

/-! ## Claim C3: `calculate_bounds` on empty input -/

/-- Claim C3, counterexample.  The claim states that `bounds` applied to an
empty coordinate sequence fails with `EmptyGeometryError` and does not return
a default value.  In the source, `calculate_bounds` is total: on empty input
it returns the empty dict `{}` (embedded as `none`), a default value, and
raises nothing. -/
theorem c3_counterexample : calculate_bounds ([] : List Coordinates) = none := rfl

/-- Claim C3 (corrected): `calculate_bounds` never fails; on an empty sequence
it returns the empty dict (no bounds), and on any nonempty sequence it returns
a populated bounds record. -/
theorem c3_bounds_empty_returns_default :
    calculate_bounds ([] : List Coordinates) = none ∧
    ∀ (c : Coordinates) (cs : List Coordinates),
      (calculate_bounds (c :: cs)).isSome = true := by
  refine ⟨rfl, fun c cs => ?_⟩
  simp [calculate_bounds]

/-! ## Claim C4: haversine distance properties -/

/-- Claim C4: for all valid in-range coordinates `a` and `b`, the haversine
distance is exactly symmetric, the distance from a point to itself is `0`, and
every distance is nonnegative. -/
theorem c4_distance_properties (a b : Coordinates) (ha : a.Valid) (hb : b.Valid) :
    haversine_distance a.latitude a.longitude b.latitude b.longitude =
      haversine_distance b.latitude b.longitude a.latitude a.longitude ∧
    haversine_distance a.latitude a.longitude a.latitude a.longitude = 0 ∧
    0 ≤ haversine_distance a.latitude a.longitude b.latitude b.longitude := by
  refine ⟨?_, ?_, ?_⟩
  · rw [haversine_distance_eq, haversine_distance_eq,
      hav_symm a.latitude a.longitude b.latitude b.longitude]
  · rw [haversine_distance_eq, hav_self]
    norm_num [atan2, Real.arctan_zero]
  · rw [haversine_distance_eq]
    have h := atan2_nonneg (Real.sqrt_nonneg (hav a.latitude a.longitude b.latitude b.longitude))
      (Real.sqrt_nonneg (1 - hav a.latitude a.longitude b.latitude b.longitude))
    positivity

/-- Claim C4, witness: instance of `c4_distance_properties` at two concrete
in-range coordinates. -/
theorem c4_distance_properties_witness :
    (({ latitude := 0, longitude := 0 } : Coordinates).Valid) ∧
    (({ latitude := 10, longitude := 20 } : Coordinates).Valid) ∧
    0 ≤ haversine_distance 0 0 10 20 :=
  ⟨by norm_num [Coordinates.Valid], by norm_num [Coordinates.Valid],
    (c4_distance_properties { latitude := 0, longitude := 0 }
      { latitude := 10, longitude := 20 }
      (by norm_num [Coordinates.Valid]) (by norm_num [Coordinates.Valid])).2.2⟩

/-! ## Claim C5: shoelace area under rotation and reversal -/

/-- Claim C5: for every ring of at least 3 coordinates, `calculate_polygon_area`
is unchanged by rotating the ring (shifting its start point), and its magnitude
is unchanged by reversing the ring. -/
theorem c5_area_rotate_reverse (l : List Coordinates) (k : ℕ) (h : 3 ≤ l.length) :
    calculate_polygon_area (l.rotate k) = calculate_polygon_area l ∧
    |calculate_polygon_area l.reverse| = |calculate_polygon_area l| := by
  have hlen : ¬ l.length < 3 := not_lt.mpr h
  constructor
  · unfold calculate_polygon_area
    rw [List.length_rotate, shoelaceSum_rotate, List.map_rotate,
      (List.rotate_perm (l.map (·.latitude)) k).sum_eq]
  · unfold calculate_polygon_area
    rw [List.length_reverse, shoelaceSum_reverse, abs_neg, List.map_reverse,
      List.sum_reverse]

/-- Claim C5, witness: instance of `c5_area_rotate_reverse` at a concrete
triangle and rotation step 1. -/
theorem c5_area_rotate_reverse_witness :
    3 ≤ ([({ latitude := 0, longitude := 0 } : Coordinates),
          { latitude := 0, longitude := 1 },
          { latitude := 1, longitude := 1 }] : List Coordinates).length ∧
    calculate_polygon_area
        (([({ latitude := 0, longitude := 0 } : Coordinates),
           { latitude := 0, longitude := 1 },
           { latitude := 1, longitude := 1 }] : List Coordinates).rotate 1) =
      calculate_polygon_area
        ([({ latitude := 0, longitude := 0 } : Coordinates),
          { latitude := 0, longitude := 1 },
          { latitude := 1, longitude := 1 }] : List Coordinates) :=
  ⟨by simp,
    (c5_area_rotate_reverse
      [{ latitude := 0, longitude := 0 },
       { latitude := 0, longitude := 1 },
       { latitude := 1, longitude := 1 }] 1 (by simp)).1⟩

/-! ## Claim C6: failed save leaves the cache untouched -/

/-- Claim C6: when the storage save fails during serialization (in this
program the deterministic failure: the aggregate contains a member), the
in-memory cache — in particular the entry for the project — is left exactly
as it was before the call, no part of the failed write becomes visible in it,
and the operation reports failure rather than success; the save endpoint
likewise surfaces the failure (HTTP 500).  (The claim says nothing about the
durable record; in the source the failed write does truncate it, which the
model reflects in the file map.) -/
theorem c6_failed_save_cache_untouched (s : StoreState) (project_id : String)
    (geodata : ProjectGeoData) (hfail : serializable geodata = false) :
    (saveStorage s project_id geodata).2 = false ∧
    (saveStorage s project_id geodata).1.cache = s.cache ∧
    (saveEndpoint s project_id geodata).2 = false ∧
    (saveEndpoint s project_id geodata).1.cache = s.cache := by
  have hs : serializable (recomputeAggregate project_id geodata) = false := by
    rw [serializable_recompute]; exact hfail
  refine ⟨?_, ?_, ?_, ?_⟩ <;> simp [saveStorage, saveEndpoint, hfail, hs]

/-- Claim C6, witness: instance of `c6_failed_save_cache_untouched` at a
concrete aggregate containing one point. -/
theorem c6_failed_save_cache_untouched_witness :
    serializable memberedAgg = false ∧
    (saveStorage emptyStore "m" memberedAgg).2 = false ∧
    (saveStorage emptyStore "m" memberedAgg).1.cache = emptyStore.cache :=
  ⟨rfl, (c6_failed_save_cache_untouched emptyStore "m" memberedAgg rfl).1,
    (c6_failed_save_cache_untouched emptyStore "m" memberedAgg rfl).2.1⟩

/-! ## Claim C7: delete is idempotent -/

/-- Claim C7: `delete` is idempotent — deleting an absent project succeeds,
two consecutive deletes for the same project both succeed, and afterwards both
the cache entry and the durable record are absent. -/
theorem c7_delete_idempotent (s : StoreState) (project_id : String) :
    (deleteStorage s project_id).2 = true ∧
    (deleteStorage (deleteStorage s project_id).1 project_id).2 = true ∧
    (deleteStorage (deleteStorage s project_id).1 project_id).1.cache project_id = none ∧
    (deleteStorage (deleteStorage s project_id).1 project_id).1.files project_id = none := by
  refine ⟨rfl, rfl, ?_, ?_⟩ <;> simp [deleteStorage]

/-! ## Claim C8: GeoJSON export -/

/-- Claim C8 (corrected): in the GeoJSON export every point feature's geometry
coordinates are `[longitude, latitude]` (the reverse of the internal
`Coordinate` field order), every polygon feature's properties always contain
the key `"area_sqm"`, and its value is the polygon's `area_sqm` field whenever
the polygon's own `properties` map does not itself contain an `"area_sqm"`
entry (a caller-supplied `"area_sqm"` property shadows the computed field;
see the counterexample). -/
theorem c8_export_geojson (g : ProjectGeoData) (pid : String) :
    (∃ props, toGeoJson pid g =
      Json.obj [("type", Json.str "FeatureCollection"),
        ("features", Json.arr (g.points.map pointFeature ++
          g.polygons.map polygonFeature ++ g.lines.map lineFeature)),
        ("properties", props)]) ∧
    (∀ pt ∈ g.points, ∃ props, pointFeature pt =
      Json.obj [("type", Json.str "Feature"),
        ("geometry", Json.obj [("type", Json.str "Point"),
          ("coordinates", Json.arr [Json.num pt.coordinates.longitude,
            Json.num pt.coordinates.latitude])]),
        ("properties", props)]) ∧
    (∀ poly ∈ g.polygons,
      (jsonLookup (polygonProperties poly) "area_sqm").isSome = true ∧
      (jsonLookup poly.properties "area_sqm" = none →
        jsonLookup (polygonProperties poly) "area_sqm" = some (optNum poly.area_sqm))) := by
  refine ⟨⟨_, rfl⟩, fun pt _ => ⟨_, rfl⟩, fun poly _ => ⟨?_, ?_⟩⟩
  · rcases hid : poly.properties.find? (fun kv2 => kv2.1 == "id") with - | kvid <;>
    rcases har : poly.properties.find? (fun kv2 => kv2.1 == "area_sqm") with - | kvar <;>
      simp [polygonProperties, dictUpdate, jsonLookup, List.find?, hid, har]
  · intro hnone
    have har : poly.properties.find? (fun kv2 => kv2.1 == "area_sqm") = none := by
      simpa [jsonLookup] using hnone
    rcases hid : poly.properties.find? (fun kv2 => kv2.1 == "id") with - | kvid <;>
      simp [polygonProperties, dictUpdate, jsonLookup, List.find?, hid, har]

/-- Claim C8, witness: instance of `c8_export_geojson` at a concrete aggregate
and polygon. -/
theorem c8_export_geojson_witness :
    plainPoly ∈ c8Agg.polygons ∧
    jsonLookup plainPoly.properties "area_sqm" = none ∧
    jsonLookup (polygonProperties plainPoly) "area_sqm" = some (optNum plainPoly.area_sqm) :=
  ⟨by simp [c8Agg], rfl,
    ((c8_export_geojson c8Agg "q").2.2 plainPoly (by simp [c8Agg])).2 rfl⟩

/-- Claim C8, counterexample.  The claim says every polygon feature's
properties include the polygon's `area_sqm`.  For a polygon whose own
properties carry an `"area_sqm"` entry, the Python dict construction
`{"id": ..., "area_sqm": ..., **polygon.properties}` lets the caller-supplied
entry override the computed field: the exported property is `999`, not the
polygon's `area_sqm` value `12`. -/
theorem c8_counterexample :
    jsonLookup (polygonProperties shadowPoly) "area_sqm" = some (Json.num 999) ∧
    optNum shadowPoly.area_sqm = Json.num 12 ∧
    jsonLookup (polygonProperties shadowPoly) "area_sqm" ≠
      some (optNum shadowPoly.area_sqm) := by
  refine ⟨rfl, rfl, ?_⟩
  have h1 : jsonLookup (polygonProperties shadowPoly) "area_sqm" =
      some (Json.num 999) := rfl
  have h2 : optNum shadowPoly.area_sqm = Json.num 12 := rfl
  rw [h1, h2]
  intro h
  have : (999 : ℝ) = 12 := by
    injection h with h'
    injection h'
  norm_num at this

/-! ## Claim C9: `calculate_center` -/

/-- Claim C9: `calculate_center` applied to an empty sequence returns the
coordinate (0, 0) rather than failing; on a nonempty sequence it returns the
arithmetic mean of the latitudes and of the longitudes. -/
theorem c9_center_mean (l : List Coordinates) (h : l ≠ []) :
    calculate_center [] = { latitude := 0, longitude := 0 } ∧
    (calculate_center l).latitude = (l.map (·.latitude)).sum / l.length ∧
    (calculate_center l).longitude = (l.map (·.longitude)).sum / l.length := by
  have hne : l.isEmpty = false := by
    cases l with
    | nil => exact absurd rfl h
    | cons a t => rfl
  refine ⟨rfl, ?_, ?_⟩ <;> simp [calculate_center, hne]

/-- Claim C9, witness: instance of `c9_center_mean` at a concrete singleton
list. -/
theorem c9_center_mean_witness :
    ([({ latitude := 3, longitude := 4 } : Coordinates)] ≠ []) ∧
    (calculate_center [({ latitude := 3, longitude := 4 } : Coordinates)]).latitude =
      ([({ latitude := 3, longitude := 4 } : Coordinates)].map (·.latitude)).sum /
        ([({ latitude := 3, longitude := 4 } : Coordinates)] : List Coordinates).length :=
  ⟨by simp, (c9_center_mean [{ latitude := 3, longitude := 4 }] (by simp)).2.1⟩

/-! ## Claim C10: the path parameter overrides the body's project id -/

/-- Claim C10 (corrected): the save endpoint stores an aggregate only when
the request aggregate is serializable, i.e. has no members; in that case the
aggregate stored in both the in-memory cache and the durable record carries
the path parameter's `project_id`, regardless of the id in the request body.
(For any aggregate with a member the save fails and nothing is stored; see
the counterexample.) -/
theorem c10_save_forces_project_id (s : StoreState) (project_id : String)
    (geodata : ProjectGeoData) (hser : serializable geodata = true) :
    ∃ g', (saveEndpoint s project_id geodata).1.cache project_id = some g' ∧
      (saveEndpoint s project_id geodata).1.files project_id = some g' ∧
      g'.project_id = project_id ∧
      (saveEndpoint s project_id geodata).2 = true := by
  have hs : serializable (recomputeAggregate project_id geodata) = true := by
    rw [serializable_recompute]; exact hser
  refine ⟨recomputeAggregate project_id geodata, ?_, ?_, ?_, ?_⟩
  · simp [saveEndpoint, saveStorage, hs]
  · simp [saveEndpoint, saveStorage, hs]
  · unfold recomputeAggregate
    by_cases h : (allCoordinates { geodata with project_id := project_id }).isEmpty <;>
      simp [h]
  · simp [saveEndpoint, saveStorage, hs]

/-- Claim C10, witness: instance of `c10_save_forces_project_id` at a
concrete member-free aggregate whose body id ("x") differs from the path
parameter ("p"). -/
theorem c10_save_forces_project_id_witness :
    serializable staleAgg = true ∧
    ∃ g', (saveEndpoint emptyStore "p" staleAgg).1.cache "p" = some g' ∧
      (saveEndpoint emptyStore "p" staleAgg).1.files "p" = some g' ∧
      g'.project_id = "p" ∧ (saveEndpoint emptyStore "p" staleAgg).2 = true :=
  ⟨rfl, c10_save_forces_project_id emptyStore "p" staleAgg rfl⟩

/-- Claim C10, counterexample.  The claim ranges over any request aggregate.
For a request aggregate containing a member (here one point, body id "m"),
the endpoint's save fails with HTTP 500 and stores nothing: after the run the
cache holds no aggregate for the path id and the durable store holds no
record either, so no stored aggregate with the path's project_id exists. -/
theorem c10_counterexample :
    (saveEndpoint emptyStore "p" memberedAgg).2 = false ∧
    (saveEndpoint emptyStore "p" memberedAgg).1.cache "p" = none ∧
    (saveEndpoint emptyStore "p" memberedAgg).1.files "p" = none := by
  have hs : serializable (recomputeAggregate "p" memberedAgg) = false := by
    rw [serializable_recompute]; rfl
  refine ⟨?_, ?_, ?_⟩ <;> simp [saveEndpoint, saveStorage, hs, emptyStore]

end Gis
